import Mathlib

/-!
Shallow embedding of `src/lib.rs` of the app-world crate.

The crate stores one user-defined world value `W` behind an
`Arc<RwLock<W>>` inside `AppWorldWrapper<W>`.  The public surface is:

* `AppWorldWrapper::new(world)` (lib.rs 116-119) — wraps the initial
  world in a fresh lock;
* `AppWorldWrapper::msg(msg)` (lib.rs 122-124) — literally
  `self.world.write().unwrap().msg(msg)`: block for the write lock,
  panic if it is poisoned, then run the user handler `AppWorld::msg`;
* `AppWorldWrapper::read()` (lib.rs 142-156) — first checks and sets the
  thread-local `HAS_READ` flag (panicking if it is already set), then
  `self.world.read().unwrap()`;
* `Drop for WorldReadGuard` (lib.rs 191-197) — resets the thread-local
  flag to `false`.

Machine-level effects are made explicit:

* a possible panic is an explicit outcome constructor;
* the user handler may itself panic, modelled by `Option`: `none` is a
  handler panic, which poisons the lock;
* whether the OS lock would grant or block an acquisition at this moment
  (another thread holding the write lock, or — on writer-priority
  platforms — merely waiting for it) is the explicit parameter `Acq`;
* the per-thread `HAS_READ` flag is threaded explicitly as a `Bool`.
  In the source it is a `thread_local!` static declared in the generic
  `impl` block, hence NOT a field of any wrapper instance: faithfully,
  `read` here takes the flag and the wrapper as separate arguments.

Dispatch is instrumented with a list of observable `DispatchEvent`s so
that properties about what a dispatch does (run the user handler, invoke
a render callback, record the message in a capture buffer) can be
stated.  The source's `msg` body only runs the handler, so only
`handlerRun` events are ever emitted; the other constructors are
observation vocabulary needed to state specification-level properties.
-/

/-- Model of `std::sync::RwLock<W>`: the protected value together with the
poison flag that is set when a panic unwinds while the write guard is held. -/
structure RwLock (W : Type) where
  value : W
  poisoned : Bool
deriving DecidableEq

/-- Model of `AppWorldWrapper<W>` (lib.rs 91-93): its single field `world`
holds the shared `Arc<RwLock<W>>`. -/
structure AppWorldWrapper (W : Type) where
  world : RwLock W
deriving DecidableEq

/-- Model of the `AppWorld` trait (lib.rs 96-112): the associated type
`Message` is the parameter `M`, and `msg` is the user handler
`fn msg(&mut self, message: Self::Message)`, receiving the current world
and the message and producing the updated world.  A `none` result models
the user handler panicking mid-mutation. -/
structure AppWorld (W M : Type) where
  msg : W → M → Option W

/-- The distinct panics the library code can raise. -/
inductive PanicKind
  | reentrant
  | poisoned
  | handlerPanic
deriving DecidableEq

/-- Whether the OS reader/writer lock would grant the requested acquisition
right now (`granted`) or make the calling thread block (`blocked`, e.g.
a writer currently holds the lock, or on writer-priority platforms another
thread is waiting for the write lock). -/
inductive Acq
  | granted
  | blocked
deriving DecidableEq

/-- Outcome of a call to `AppWorldWrapper::read`: a live guard whose deref
target is the world value, the thread blocking on the lock, or a panic. -/
inductive ReadOutcome (W : Type)
  | ok (w : W)
  | blocked
  | panicked (k : PanicKind)
deriving DecidableEq

/-- Result of a call to `AppWorldWrapper::read`: the outcome together with
the calling thread's `HAS_READ` flag after the call. -/
structure ReadResult (W : Type) where
  outcome : ReadOutcome W
  has_read : Bool
deriving DecidableEq

/-- Model of `AppWorldWrapper::read` (lib.rs 142-156).  The source first
runs the `HAS_READ.with` block: if the thread's flag is already set it
panics (`panic!("Thread already holds read guard")`) before ever touching
the lock, otherwise it sets the flag to `true`.  Only then does it run
`self.world.read().unwrap()`: block until the lock is granted, then panic
if the lock is poisoned, else return the guard.  Note that on every
non-`ok` path reached after the flag was set, the flag stays `true`
because no `WorldReadGuard` was constructed, so no `Drop` runs. -/
def AppWorldWrapper.read (has_read : Bool) (self : AppWorldWrapper W) (acq : Acq) :
    ReadResult W :=
  if has_read then ⟨.panicked .reentrant, true⟩
  else
    match acq with
    | .blocked => ⟨.blocked, true⟩
    | .granted =>
      if self.world.poisoned then ⟨.panicked .poisoned, true⟩
      else ⟨.ok self.world.value, true⟩

/-- Model of `Drop for WorldReadGuard` (lib.rs 191-197): releasing the
guard sets the owning thread's flag back to `false`, whatever it was.
Rust runs `Drop` on every exit path of the guard's scope: normal end of
scope, early return, and unwind alike. -/
def WorldReadGuard.drop (_prev : Bool) : Bool := false

/-- Observable actions a dispatch could perform.  The source's `msg` only
ever runs the user handler; `renderInvoked` and `captured` are the
observations the specification talks about (render callback invocation,
message capture) and are never emitted by the code in this repository. -/
inductive DispatchEvent (W M : Type)
  | handlerRun (pre : W) (m : M)
  | renderInvoked
  | captured (m : M)
deriving DecidableEq

/-- Whether an event is a render-callback invocation. -/
def DispatchEvent.isRender : DispatchEvent W M → Bool
  | .renderInvoked => true
  | _ => false

/-- The messages recorded in a capture buffer by a trace of events, in
order. -/
def capturedMsgs : List (DispatchEvent W M) → List M
  | [] => []
  | .captured m :: es => m :: capturedMsgs es
  | _ :: es => capturedMsgs es

/-- Outcome of a call to `AppWorldWrapper::msg`. -/
inductive MsgOutcome
  | ok
  | blocked
  | panicked (k : PanicKind)
deriving DecidableEq

/-- Result of a call to `AppWorldWrapper::msg`: the outcome, the wrapper
(its lock state) afterwards, and the observable events of the dispatch. -/
structure MsgResult (W M : Type) where
  outcome : MsgOutcome
  wrapper : AppWorldWrapper W
  events : List (DispatchEvent W M)
deriving DecidableEq

/-- Model of `AppWorldWrapper::msg` (lib.rs 122-124):
`self.world.write().unwrap().msg(msg)`.  Block until the write lock is
granted; `unwrap` panics if the lock is poisoned; otherwise run the user
handler on the current world and the message.  If the handler panics,
the panic unwinds while the write guard is held, so the lock becomes
poisoned (the half-mutated value is modelled by keeping the old value —
it is never served again).  The body does nothing else: no predicate is
evaluated, no callback invoked, no message recorded. -/
def AppWorldWrapper.msg (A : AppWorld W M) (self : AppWorldWrapper W) (acq : Acq)
    (m : M) : MsgResult W M :=
  match acq with
  | .blocked => ⟨.blocked, self, []⟩
  | .granted =>
    if self.world.poisoned then ⟨.panicked .poisoned, self, []⟩
    else
      match A.msg self.world.value m with
      | some w2 => ⟨.ok, ⟨⟨w2, self.world.poisoned⟩⟩, [.handlerRun self.world.value m]⟩
      | none => ⟨.panicked .handlerPanic, ⟨⟨self.world.value, true⟩⟩,
          [.handlerRun self.world.value m]⟩

/-- Model of `AppWorldWrapper::new` (lib.rs 116-119): wrap the given
initial world in a fresh, unpoisoned lock.  The constructor takes the
initial world and nothing else. -/
def AppWorldWrapper.new (world : W) : AppWorldWrapper W := ⟨⟨world, false⟩⟩

/-- Sequential dispatch of a list of messages through
`AppWorldWrapper::msg` from one thread with no other thread contending
for the lock (each write acquisition is granted).  The run stops at the
first non-`ok` outcome, as the dispatching thread would unwind. -/
def runMsgs (A : AppWorld W M) (self : AppWorldWrapper W) : List M → MsgResult W M
  | [] => ⟨.ok, self, []⟩
  | m :: ms =>
    let r := AppWorldWrapper.msg A self .granted m
    match r.outcome with
    | .ok =>
      let rest := runMsgs A r.wrapper ms
      ⟨rest.outcome, rest.wrapper, r.events ++ rest.events⟩
    | o => ⟨o, r.wrapper, r.events⟩

/-- The `TestWorld` of the test module (lib.rs 270-279). -/
structure TestWorld where
  was_mutated : Bool
deriving DecidableEq

/-- The `AppWorld` impl for `TestWorld` (lib.rs 274-279): `Message = ()`
and `msg` sets `was_mutated` to `true`. -/
def TestWorld.app : AppWorld TestWorld Unit := ⟨fun _ _ => some ⟨true⟩⟩

/-- A user handler that panics on every message, exercising poisoning. -/
def panicApp : AppWorld TestWorld Unit := ⟨fun _ _ => none⟩

/-- A world that is a counter with messages that add to it, for concrete
scenarios with two distinguishable messages. -/
def natAdd : AppWorld Nat Nat := ⟨fun w m => some (w + m)⟩

/-- Argument data of the user handler as the source trait declares it:
`fn msg(&mut self, message: Self::Message)` receives the world state
(through `&mut self`) and the message — nothing more. -/
abbrev AppWorld.handlerArgs (W M : Type) : Type := W × M

/-- Modelled from the spec: the spec's `dispatch_message(message,
wrapper_handle)` handler receives the state, the message, AND a handle
back to the wrapper (of some handle type `H`). -/
abbrev specHandlerArgs (W M H : Type) : Type := W × M × H

/-- Argument data of the source constructor: `new(world)` receives the
initial world only. -/
abbrev AppWorldWrapper.newArgs (W : Type) : Type := W

/-- Modelled from the spec: the spec's constructor
`new(initial_state, render_callback)` receives the initial state together
with a render callback (of some callback type `RC`). -/
abbrev specNewArgs (W RC : Type) : Type := W × RC

/-- Modelled from the spec: an always-true `should_rerender` predicate on
the pre-mutation state and the message, for the rerender counterexample
scenario (the spec scenario "predicate always true"). -/
def specShouldRerender : TestWorld → Unit → Bool := fun _ _ => true

/-- Helper: a `read` call starting with the flag clear always leaves the
thread's flag set, whatever the outcome — the source sets the flag before
touching the lock. -/
theorem read_sets_flag (self : AppWorldWrapper W) (acq : Acq) :
    (AppWorldWrapper.read false self acq).has_read = true := by
  cases acq <;> simp only [AppWorldWrapper.read, Bool.false_eq_true, if_false]
  split <;> rfl

/-- C1: a thread that already holds a live read guard (its `HAS_READ`
flag is `true`) gets the reentrancy panic from `read()` immediately:
for every wrapper (any lock state, poisoned or not) and every lock
availability — in particular `Acq.blocked`, i.e. even when another
thread holds or is waiting for the write lock — the result is the
reentrant panic, never `blocked`, and deterministically so. -/
theorem read_reentrant_panics (W : Type) (self : AppWorldWrapper W) (acq : Acq) :
    AppWorldWrapper.read true self acq = ⟨.panicked .reentrant, true⟩ := rfl

/-- C7: the per-thread state machine Idle → Reading → Idle: a first
`read` on an unpoisoned lock succeeds and sets the flag (Reading);
dropping the guard resets the flag to `false` (Idle) — the drop model
runs on every exit path of the scope — and a subsequent `read` with the
dropped flag succeeds immediately again. -/
theorem read_after_drop (lock : RwLock W) (hp : lock.poisoned = false) :
    AppWorldWrapper.read false ⟨lock⟩ .granted = ⟨.ok lock.value, true⟩
    ∧ WorldReadGuard.drop true = false
    ∧ AppWorldWrapper.read (WorldReadGuard.drop true) ⟨lock⟩ .granted
        = ⟨.ok lock.value, true⟩ := by
  refine ⟨?_, rfl, ?_⟩ <;>
    simp [AppWorldWrapper.read, WorldReadGuard.drop, hp]

/-- Witness for C7 at the concrete `TestWorld` lock. -/
theorem read_after_drop_witness :
    (⟨⟨false⟩, false⟩ : RwLock TestWorld).poisoned = false
    ∧ (AppWorldWrapper.read false
          (⟨⟨⟨false⟩, false⟩⟩ : AppWorldWrapper TestWorld) .granted
          = ⟨.ok ⟨false⟩, true⟩
        ∧ WorldReadGuard.drop true = false
        ∧ AppWorldWrapper.read (WorldReadGuard.drop true)
            (⟨⟨⟨false⟩, false⟩⟩ : AppWorldWrapper TestWorld) .granted
            = ⟨.ok ⟨false⟩, true⟩) :=
  ⟨rfl, read_after_drop (⟨⟨false⟩, false⟩ : RwLock TestWorld) rfl⟩

/-- C9: the `HAS_READ` flag is a single thread-local per world type `W`,
not a field of any wrapper instance: once a thread holds a live read
guard obtained from wrapper `wA`, a `read()` on ANY wrapper `wB` of the
same type `W` — including a distinct, unrelated instance with its own
lock, in any availability state — panics with the reentrancy error. -/
theorem reentrancy_shared_across_wrappers (wA wB : AppWorldWrapper W) (acqB : Acq)
    (v : W) (h : (AppWorldWrapper.read false wA .granted).outcome = .ok v) :
    AppWorldWrapper.read (AppWorldWrapper.read false wA .granted).has_read wB acqB
      = ⟨.panicked .reentrant, true⟩ := by
  rw [read_sets_flag]; rfl

/-- Witness for C9: a fresh wrapper is read, then a different wrapper of
the same type (here even one with a poisoned lock) panics reentrant. -/
theorem reentrancy_shared_across_wrappers_witness :
    (AppWorldWrapper.read false (AppWorldWrapper.new (⟨false⟩ : TestWorld))
        .granted).outcome = .ok ⟨false⟩
    ∧ AppWorldWrapper.read
        (AppWorldWrapper.read false (AppWorldWrapper.new (⟨false⟩ : TestWorld))
          .granted).has_read
        (⟨⟨⟨true⟩, true⟩⟩ : AppWorldWrapper TestWorld) .blocked
        = ⟨.panicked .reentrant, true⟩ :=
  ⟨rfl, reentrancy_shared_across_wrappers (AppWorldWrapper.new (⟨false⟩ : TestWorld))
    (⟨⟨⟨true⟩, true⟩⟩ : AppWorldWrapper TestWorld) .blocked ⟨false⟩ rfl⟩

/-- C10: `read()` sets the thread-local flag before acquiring the lock,
so a read that panics on a poisoned lock leaves the flag `true` (changed
from `false`) with no guard to ever reset it; every subsequent `read` on
that thread then fails with the reentrancy panic — not the poisoning
panic — on any wrapper and any availability. -/
theorem failed_read_leaves_flag_set (lock lock2 : RwLock W) (acq : Acq)
    (hp : lock.poisoned = true) :
    AppWorldWrapper.read false ⟨lock⟩ .granted = ⟨.panicked .poisoned, true⟩
    ∧ AppWorldWrapper.read true ⟨lock2⟩ acq = ⟨.panicked .reentrant, true⟩ := by
  constructor
  · simp [AppWorldWrapper.read, hp]
  · rfl

/-- Witness for C10 at a concrete poisoned lock. -/
theorem failed_read_leaves_flag_set_witness :
    (⟨⟨false⟩, true⟩ : RwLock TestWorld).poisoned = true
    ∧ (AppWorldWrapper.read false
          (⟨⟨⟨false⟩, true⟩⟩ : AppWorldWrapper TestWorld) .granted
          = ⟨.panicked .poisoned, true⟩
        ∧ AppWorldWrapper.read true
            (⟨⟨⟨false⟩, false⟩⟩ : AppWorldWrapper TestWorld) .granted
            = ⟨.panicked .reentrant, true⟩) :=
  ⟨rfl, failed_read_leaves_flag_set ⟨⟨false⟩, true⟩ ⟨⟨false⟩, false⟩ .granted rfl⟩

/-- Helper: running a non-panicking handler over a message list from an
unpoisoned lock succeeds and leaves the left-fold of the handler in an
unpoisoned lock. -/
theorem runMsgs_pure_wrapper (f : W → M → W) (ms : List M) : ∀ (w0 : W),
    (runMsgs ⟨fun w m => some (f w m)⟩ ⟨⟨w0, false⟩⟩ ms).wrapper
        = ⟨⟨ms.foldl f w0, false⟩⟩
    ∧ (runMsgs ⟨fun w m => some (f w m)⟩ ⟨⟨w0, false⟩⟩ ms).outcome = .ok := by
  induction ms with
  | nil => exact fun w0 => ⟨rfl, rfl⟩
  | cons m ms ih => exact fun w0 => ih (f w0 m)

/-- C2: dispatching any finite message sequence from a single thread via
`msg`, with a user handler that never panics (`fun w m => some (f w m)`),
completes and leaves exactly the sequential left-fold of the handler over
the initial state and the messages, in dispatch order. -/
theorem msg_fold (f : W → M → W) (w0 : W) (ms : List M) :
    (runMsgs ⟨fun w m => some (f w m)⟩ (AppWorldWrapper.new w0) ms).outcome = .ok
    ∧ (runMsgs ⟨fun w m => some (f w m)⟩
          (AppWorldWrapper.new w0) ms).wrapper.world.value = ms.foldl f w0 := by
  have h := runMsgs_pure_wrapper f ms w0
  exact ⟨h.2, congrArg (fun x => x.world.value) h.1⟩

/-- C4: poisoning is fatal and permanent.  A user handler that panics
mid-mutation (on an unpoisoned lock) leaves the lock poisoned with the
handler-panic propagating; and on a poisoned lock, every `read` (any
thread flag) and every `msg` fails — `read` never yields a guard for any
value, `msg` never succeeds, never runs the handler, and leaves the
wrapper (hence the possibly-inconsistent state) untouched and poisoned. -/
theorem poisoned_fatal (A : AppWorld W M) (lock lock2 : RwLock W) (m : M)
    (h : lock.poisoned = true) (h2 : lock2.poisoned = false)
    (hm : A.msg lock2.value m = none)
    (has_read : Bool) (acq : Acq) (w : W) :
    (AppWorldWrapper.read has_read ⟨lock⟩ acq).outcome ≠ .ok w
    ∧ (AppWorldWrapper.msg A ⟨lock⟩ acq m).outcome ≠ .ok
    ∧ (AppWorldWrapper.msg A ⟨lock⟩ acq m).wrapper = ⟨lock⟩
    ∧ (AppWorldWrapper.msg A ⟨lock⟩ acq m).events = []
    ∧ (AppWorldWrapper.msg A ⟨lock2⟩ .granted m).outcome = .panicked .handlerPanic
    ∧ (AppWorldWrapper.msg A ⟨lock2⟩ .granted m).wrapper.world.poisoned = true := by
  refine ⟨?_, ?_, ?_, ?_, ?_, ?_⟩
  · cases has_read <;> cases acq <;> simp [AppWorldWrapper.read, h]
  · cases acq <;> simp [AppWorldWrapper.msg, h]
  · cases acq <;> simp [AppWorldWrapper.msg, h]
  · cases acq <;> simp [AppWorldWrapper.msg, h]
  · simp [AppWorldWrapper.msg, h2, hm]
  · simp [AppWorldWrapper.msg, h2, hm]

/-- Witness for C4: the always-panicking handler poisons a fresh lock,
and on a poisoned lock both `read` and `msg` fail without touching it. -/
theorem poisoned_fatal_witness :
    (⟨⟨false⟩, true⟩ : RwLock TestWorld).poisoned = true
    ∧ (⟨⟨false⟩, false⟩ : RwLock TestWorld).poisoned = false
    ∧ panicApp.msg ⟨false⟩ () = none
    ∧ ((AppWorldWrapper.read false
          (⟨⟨⟨false⟩, true⟩⟩ : AppWorldWrapper TestWorld) .granted).outcome
          ≠ .ok ⟨true⟩
        ∧ (AppWorldWrapper.msg panicApp
            (⟨⟨⟨false⟩, true⟩⟩ : AppWorldWrapper TestWorld) .granted ()).outcome ≠ .ok
        ∧ (AppWorldWrapper.msg panicApp
            (⟨⟨⟨false⟩, true⟩⟩ : AppWorldWrapper TestWorld) .granted ()).wrapper
            = ⟨⟨⟨false⟩, true⟩⟩
        ∧ (AppWorldWrapper.msg panicApp
            (⟨⟨⟨false⟩, true⟩⟩ : AppWorldWrapper TestWorld) .granted ()).events = []
        ∧ (AppWorldWrapper.msg panicApp
            (⟨⟨⟨false⟩, false⟩⟩ : AppWorldWrapper TestWorld) .granted ()).outcome
            = .panicked .handlerPanic
        ∧ (AppWorldWrapper.msg panicApp
            (⟨⟨⟨false⟩, false⟩⟩ : AppWorldWrapper TestWorld)
            .granted ()).wrapper.world.poisoned = true) :=
  ⟨rfl, rfl, rfl,
    poisoned_fatal panicApp ⟨⟨false⟩, true⟩ ⟨⟨false⟩, false⟩ () rfl rfl rfl
      false .granted ⟨true⟩⟩

/-- C3 amended: no dispatch ever invokes a render callback: the body of
`msg` contains no render machinery at all (and no `should_rerender`
predicate exists to be evaluated), so the count of render invocations in
every dispatch is zero, for every handler, wrapper, availability and
message. -/
theorem msg_never_renders (A : AppWorld W M) (self : AppWorldWrapper W)
    (acq : Acq) (m : M) :
    (AppWorldWrapper.msg A self acq m).events.countP (fun e => e.isRender) = 0 := by
  cases acq
  · by_cases hp : self.world.poisoned = true
    · simp [AppWorldWrapper.msg, hp]
    · cases hA : A.msg self.world.value m <;>
        simp [AppWorldWrapper.msg, hp, hA, List.countP_cons, List.countP_nil,
          DispatchEvent.isRender]
  · rfl

/-- C3 counterexample: at the concrete `TestWorld` input with the spec's
always-true `should_rerender` predicate, the claim demands exactly one
render invocation for the dispatch, but the code performs zero. -/
theorem render_not_tied_to_predicate :
    ¬ ((AppWorldWrapper.msg TestWorld.app
          (AppWorldWrapper.new (⟨false⟩ : TestWorld)) .granted ()).events.countP
            (fun e => e.isRender)
        = (if specShouldRerender ⟨false⟩ () then 1 else 0)) := by
  decide

/-- C5 amended: on every granted, unpoisoned dispatch the user handler is
invoked exactly once, receiving exactly the pre-mutation state and the
message — as `fn msg(&mut self, message)` declares — and no wrapper
handle. -/
theorem handler_receives_state_and_msg (A : AppWorld W M) (lock : RwLock W)
    (m : M) (hp : lock.poisoned = false) :
    (AppWorldWrapper.msg A ⟨lock⟩ .granted m).events
      = [DispatchEvent.handlerRun lock.value m] := by
  cases hA : A.msg lock.value m <;> simp [AppWorldWrapper.msg, hp, hA]

/-- Witness for C5 at the concrete `TestWorld` input. -/
theorem handler_receives_state_and_msg_witness :
    (⟨⟨false⟩, false⟩ : RwLock TestWorld).poisoned = false
    ∧ (AppWorldWrapper.msg TestWorld.app
          (⟨⟨⟨false⟩, false⟩⟩ : AppWorldWrapper TestWorld) .granted ()).events
        = [DispatchEvent.handlerRun ⟨false⟩ ()] :=
  ⟨rfl, handler_receives_state_and_msg TestWorld.app ⟨⟨false⟩, false⟩ () rfl⟩

/-- Helper: any two inhabitants of `PUnit × PUnit` are equal. -/
theorem punitPair_eq (x y : PUnit × PUnit) : x = y := by
  obtain ⟨⟨⟩, ⟨⟩⟩ := x
  obtain ⟨⟨⟩, ⟨⟩⟩ := y
  rfl

/-- Helper: any two inhabitants of `PUnit` are equal. -/
theorem punit_eq (x y : PUnit) : x = y := by
  obtain ⟨⟩ := x
  obtain ⟨⟩ := y
  rfl

/-- C5 counterexample: the argument data that the source trait hands the
handler (state and message) is not even in bijection with what the spec
prescribes (state, message AND a wrapper handle) at concrete types — the
handle component carries information the source handler never receives,
so the source handler cannot dispatch further messages through it. -/
theorem handler_gets_no_handle :
    ¬ Nonempty (AppWorld.handlerArgs PUnit PUnit ≃ specHandlerArgs PUnit PUnit Bool) := by
  rintro ⟨e⟩
  have h := congrArg e (punitPair_eq (e.symm (⟨⟩, ⟨⟩, false)) (e.symm (⟨⟩, ⟨⟩, true)))
  rw [Equiv.apply_symm_apply, Equiv.apply_symm_apply] at h
  simp at h

/-- C6 amended: construction takes only the initial state,
`new(initial_state)`, and produces a wrapper holding exactly that state
behind a fresh unpoisoned lock: its first read observes the given state.
No render callback is accepted or stored. -/
theorem new_from_state (w : W) :
    (AppWorldWrapper.new w).world.value = w
    ∧ (AppWorldWrapper.new w).world.poisoned = false
    ∧ AppWorldWrapper.read false (AppWorldWrapper.new w) .granted = ⟨.ok w, true⟩ :=
  ⟨rfl, rfl, rfl⟩

/-- C6 counterexample: the constructor's argument data in the source (the
initial world alone) is not in bijection with the spec's constructor
argument data (initial state AND a render callback) at concrete types:
there is no render-callback argument. -/
theorem new_takes_no_callback :
    ¬ Nonempty (AppWorldWrapper.newArgs PUnit ≃ specNewArgs PUnit Bool) := by
  rintro ⟨e⟩
  have h : ((⟨⟩, false) : specNewArgs PUnit Bool) = (⟨⟩, true) :=
    e.symm.injective (punit_eq (e.symm (⟨⟩, false)) (e.symm (⟨⟩, true)))
  simp at h

/-- Helper: `capturedMsgs` distributes over list append. -/
theorem capturedMsgs_append (l1 l2 : List (DispatchEvent W M)) :
    capturedMsgs (l1 ++ l2) = capturedMsgs l1 ++ capturedMsgs l2 := by
  induction l1 with
  | nil => rfl
  | cons e l ih => cases e <;> simp [capturedMsgs, ih]

/-- Helper: a single dispatch records no message in any capture buffer. -/
theorem capturedMsgs_msg (A : AppWorld W M) (self : AppWorldWrapper W)
    (acq : Acq) (m : M) :
    capturedMsgs (AppWorldWrapper.msg A self acq m).events = [] := by
  cases acq
  · by_cases hp : self.world.poisoned = true
    · simp [AppWorldWrapper.msg, hp, capturedMsgs]
    · cases hA : A.msg self.world.value m <;>
        simp [AppWorldWrapper.msg, hp, hA, capturedMsgs]
  · rfl

/-- C8 amended: no message capture exists in the source: no sequence of
dispatches ever appends anything to a message buffer — the captured
message log of any dispatch run is empty, for every handler, initial
wrapper and message list. -/
theorem no_capture (A : AppWorld W M) (self : AppWorldWrapper W) (ms : List M) :
    capturedMsgs (runMsgs A self ms).events = [] := by
  induction ms generalizing self with
  | nil => rfl
  | cons m ms ih =>
    simp only [runMsgs]
    split
    · simp [capturedMsgs_append, capturedMsgs_msg, ih]
    · simp [capturedMsgs_msg]

/-- C8 counterexample: dispatching message 1 then message 2 on a concrete
counter world leaves no buffer containing [1, 2] — the code records
nothing at all. -/
theorem no_buffer_after_two :
    capturedMsgs (runMsgs natAdd (AppWorldWrapper.new 0) [1, 2]).events ≠ [1, 2] := by
  decide
